import Mathlib

/-!
Verification development for the s-socket cross-platform socket wrapper
(single C header `s-socket.h`).

The header is a pure interface declaration.  Two layers are embedded here:

1. The declared API surface itself (function names, parameter and return
   types, and the success/failure conventions stated in the doc comments),
   embedded as concrete Lean data (`sSocketAPI`).  Claims about the shape
   of the interface are decided against this table.

2. The behavioural model of the components (address resolution, the UDP
   and TCP state machines, error description), whose implementations are
   not part of the header.  These definitions are modelled from the spec
   and from the header's own doc comments, and are marked as such.
-/

namespace SSocket

/-- C types appearing in the declarations of `s-socket.h`. -/
inductive CType
  | int
  | sizeT
  | voidPtr
  | charPtr
  | ptrAddrInfo
  | ptrUDPSocket
  | ptrTCPSocket
  deriving DecidableEq, Repr

/-- How a declaration signals failure, as stated in its header doc comment:
a sentinel negative integer, a sentinel nonzero integer, a NULL pointer,
a tagged result value, no failure at all, or nothing documented. -/
inductive FailureConv
  | sentinelNegative
  | sentinelNonzero
  | sentinelNull
  | taggedResult
  | infallible
  | undocumented
  deriving DecidableEq, Repr

/-- One function declaration of the header: name, return type, parameter
types in order, and the documented failure convention. -/
structure CDecl where
  name : String
  ret : CType
  params : List CType
  failure : FailureConv
  deriving DecidableEq, Repr

/-- The sixteen function declarations of `s-socket.h`, transcribed in
header order.  Parameter types are exactly those written in the source:
in particular `tcp_bind` takes `struct UDPSocket *` and `udp_free` takes
`TCPSocket *`, as declared.  Failure conventions come from the doc
comments ("zero on success", "NULL on failure", "negative on failure",
"non-zero on failure"); functions whose doc comment states no failure
convention are tagged `undocumented`, and `get_error`, documented to
always return an error string, is tagged `infallible`. -/
def sSocketAPI : List CDecl :=
  [ ⟨"setaddrinfo", .int, [.charPtr, .sizeT, .ptrAddrInfo], .sentinelNonzero⟩,
    ⟨"gethost", .charPtr, [.ptrAddrInfo], .sentinelNull⟩,
    ⟨"getport", .int, [.ptrAddrInfo], .sentinelNegative⟩,
    ⟨"udp_mksocket", .ptrUDPSocket, [], .sentinelNull⟩,
    ⟨"udp_send", .int, [.ptrUDPSocket, .ptrAddrInfo, .voidPtr, .sizeT, .sizeT],
      .sentinelNegative⟩,
    ⟨"udp_bind", .int, [.ptrUDPSocket, .ptrAddrInfo], .undocumented⟩,
    ⟨"udp_recv", .int, [.ptrUDPSocket, .voidPtr, .sizeT, .sizeT, .ptrAddrInfo],
      .sentinelNegative⟩,
    ⟨"udp_free", .int, [.ptrTCPSocket], .sentinelNonzero⟩,
    ⟨"tcp_mksocket", .ptrTCPSocket, [], .undocumented⟩,
    ⟨"tcp_bind", .int, [.ptrUDPSocket, .ptrAddrInfo], .undocumented⟩,
    ⟨"tcp_listen", .int, [.ptrTCPSocket, .int, .ptrTCPSocket, .ptrAddrInfo],
      .sentinelNonzero⟩,
    ⟨"tcp_connect", .int, [.ptrTCPSocket, .ptrAddrInfo], .sentinelNonzero⟩,
    ⟨"tcp_send", .int, [.ptrTCPSocket, .voidPtr, .sizeT, .sizeT], .undocumented⟩,
    ⟨"tcp_recv", .int, [.ptrTCPSocket, .voidPtr, .sizeT, .sizeT], .undocumented⟩,
    ⟨"tcp_free", .int, [.ptrTCPSocket], .sentinelNonzero⟩,
    ⟨"get_error", .charPtr, [.int], .infallible⟩ ]

/-- Look up a declaration of the header by name. -/
def apiDecl (n : String) : Option CDecl :=
  sSocketAPI.find? (fun d => d.name = n)

/-- Whether a C type of the interface is unsigned.  `size_t` is the only
unsigned type that occurs in the declarations. -/
def isUnsigned : CType → Bool
  | .sizeT => true
  | _ => false

/-- The closed error taxonomy of the spec (section 7), each code carrying
the originating platform number where applicable via `unknown`. -/
inductive ErrorCode
  | addressResolutionFailed
  | invalidArgument
  | socketCreateFailed
  | bindFailed
  | addressInUse
  | listenFailed
  | acceptFailed
  | connectRefused
  | connectTimeout
  | networkUnreachable
  | connectionReset
  | brokenPipe
  | wouldBlock
  | timeout
  | invalidState
  | releaseFailed
  | unknown (platformCode : Int)
  deriving DecidableEq, Repr

/-- Modelled from the spec: the payload of a successfully populated
`AddrInfo` — the printable resolved address string and the port.  The
implementation of `struct AddrInfo` is not in the header, which declares
it opaque. -/
structure AddrInfoData where
  hostStr : String
  port : Nat
  deriving DecidableEq, Repr

/-- Modelled from the spec: an `AddrInfo` object is either never
successfully populated or carries resolved data; a failed resolution
leaves it unpopulated, never partially populated. -/
structure AddrInfo where
  populated : Option AddrInfoData
  deriving DecidableEq, Repr

/-- Modelled from the spec: `setaddrinfo` (the resolver `resolve`), whose
DNS internals are an external collaborator, abstracted as an oracle
`resolver` from host strings to an optional printable address.  The port
is validated first (fail fast with an `InvalidArgument`-class error when
out of `[0, 65535]`); a resolver failure surfaces as
`AddressResolutionFailed` and produces no `AddrInfo`; on success the
populated `AddrInfo` stores the resolved address string and the input
port. -/
def setaddrinfo (resolver : String → Option String) (host : String)
    (port : Nat) : Except ErrorCode AddrInfo :=
  if 65535 < port then .error .invalidArgument
  else
    match resolver host with
    | none => .error .addressResolutionFailed
    | some ip => .ok ⟨some ⟨ip, port⟩⟩

/-- Modelled from the spec: `gethost` returns the printable address
string of a populated `AddrInfo`; the header documents NULL on failure,
embedded as `none`. -/
def gethost (a : AddrInfo) : Option String :=
  a.populated.map AddrInfoData.hostStr

/-- Modelled from the spec: `getport` returns the port of a populated
`AddrInfo`; the header documents negative values for failure. -/
def getport (a : AddrInfo) : Int :=
  match a.populated with
  | none => -1
  | some d => (d.port : Int)

/-- Modelled from the spec: `get_error` (the ErrorMapper `describe`).
The platform error table is an external collaborator, abstracted as a
partial map `table`; the function is total — unrecognized codes fall
back to a generic "unknown error <n>" message instead of failing, so a
(non-null) string is returned for every code. -/
def get_error (table : Int → Option String) (errnum : Int) : String :=
  match table errnum with
  | some s => s
  | none => "unknown error " ++ toString errnum

-- --------------------------
-- UDP state machine (spec 4.3)
-- --------------------------

/-- Modelled from the spec: the two states of a datagram handle. -/
inductive UDPState
  | unbound
  | bound
  deriving DecidableEq, Repr

/-- Modelled from the spec: the datagram operations after creation. -/
inductive UDPOp
  | bindOp
  | sendTo
  | recvFrom
  | release
  deriving DecidableEq, Repr

/-- Modelled from the spec: which datagram operation is valid in which
state — `bind` only from `Unbound` (binding twice fails), `send_to` from
either state, `recv_from` only from `Bound`, `release` from either. -/
def udpValid : UDPState → UDPOp → Bool
  | .unbound, .bindOp => true
  | .bound, .bindOp => false
  | _, .sendTo => true
  | .bound, .recvFrom => true
  | .unbound, .recvFrom => false
  | _, .release => true

/-- Modelled from the spec: one step of the datagram state machine.  The
OS outcome of a valid operation is abstracted as `os` (`none` = the OS
call succeeded, `some e` = it failed with taxonomy code `e`).  An
operation invalid in the current state fails with `InvalidState` before
reaching the OS and leaves the state unchanged. -/
def udpStep (os : Option ErrorCode) (s : UDPState) (op : UDPOp) :
    Except ErrorCode Unit × UDPState :=
  if udpValid s op then
    match os with
    | some e => (.error e, s)
    | none =>
        match op with
        | .bindOp => (.ok (), .bound)
        | _ => (.ok (), s)
  else (.error .invalidState, s)

-- --------------------------
-- TCP state machine (spec 4.4)
-- --------------------------

/-- Modelled from the spec: the states of a stream handle.  `Connected`
is split by role into passive (reached via accept) and active (reached
via connect). -/
inductive TCPState
  | fresh
  | bound
  | listening
  | connectedPassive
  | connectedActive
  | closed
  deriving DecidableEq, Repr

/-- Modelled from the spec: the stream operations after creation. -/
inductive TCPOp
  | bindOp
  | listenOp
  | accept
  | connect
  | send
  | recv
  | close
  deriving DecidableEq, Repr

/-- Modelled from the spec: the transition table of section 4.4 — which
stream operation is valid in which state.  `close` is valid from any
state. -/
def tcpValid : TCPState → TCPOp → Bool
  | .fresh, .bindOp => true
  | .bound, .listenOp => true
  | .listening, .accept => true
  | .fresh, .connect => true
  | .connectedPassive, .send => true
  | .connectedActive, .send => true
  | .connectedPassive, .recv => true
  | .connectedActive, .recv => true
  | _, .close => true
  | _, _ => false

/-- Modelled from the spec: the target state of a valid transition of the
section 4.4 table.  `accept` keeps the listener in `Listening` (the new
handle it spawns is reported separately by `tcpStep`). -/
def tcpNext : TCPState → TCPOp → TCPState
  | _, .close => .closed
  | .fresh, .bindOp => .bound
  | .bound, .listenOp => .listening
  | .listening, .accept => .listening
  | .fresh, .connect => .connectedActive
  | s, _ => s

/-- Successful outcome of a stream operation: either plain success or,
for `accept`, success together with the spawned child handle's state. -/
inductive TCPSuccess
  | unit
  | spawned (child : TCPState)
  deriving DecidableEq, Repr

/-- Modelled from the spec: one step of the stream state machine.  The OS
outcome of a valid operation is abstracted as `os` as in `udpStep`.  An
operation not valid for the current state fails immediately with
`InvalidState`, before being attempted against the OS, and the state tag
is unchanged.  A failed `close` is still reported but the handle is
`Closed` regardless (spec: best effort, unusable afterward). -/
def tcpStep (os : Option ErrorCode) (s : TCPState) (op : TCPOp) :
    Except ErrorCode TCPSuccess × TCPState :=
  if tcpValid s op then
    match os with
    | some e =>
        if op = .close then (.error e, .closed) else (.error e, s)
    | none =>
        match op with
        | .accept => (.ok (.spawned .connectedPassive), tcpNext s op)
        | _ => (.ok .unit, tcpNext s op)
  else (.error .invalidState, s)

/-- Modelled from the spec and the header's doc comment of `tcp_listen`:
the single combined listen-and-accept call.  Invoked on a bound socket
it listens and, on success, accepts one connection, furnishing the
caller-supplied client handle as an active (passively connected) socket
while the bound socket remains the listening daemon socket.  The result
is (status, listener state, client handle state). -/
def tcp_listen (os : Option ErrorCode) (s : TCPState) :
    Except ErrorCode Unit × TCPState × TCPState :=
  if s = .bound then
    match os with
    | some e => (.error e, s, .fresh)
    | none => (.ok (), .listening, .connectedPassive)
  else (.error .invalidState, s, .fresh)

-- --------------------------
-- Stream receive result encoding (spec 4.4, 7)
-- --------------------------

/-- Modelled from the spec: the three possible outcomes of `tcp_recv` on
a connected handle — orderly peer shutdown, a successful read of `n`
bytes, or an error. -/
inductive RecvOutcome
  | peerShutdown
  | received (n : Nat)
  | failed (e : ErrorCode)
  deriving DecidableEq, Repr

/-- Modelled from the spec: a strictly positive integer tag for each
taxonomy error code, so an error encodes as a strictly negative `int`
in the declared return convention (`udp_recv`: less than zero indicates
error). -/
def errTag : ErrorCode → Nat
  | .addressResolutionFailed => 1
  | .invalidArgument => 2
  | .socketCreateFailed => 3
  | .bindFailed => 4
  | .addressInUse => 5
  | .listenFailed => 6
  | .acceptFailed => 7
  | .connectRefused => 8
  | .connectTimeout => 9
  | .networkUnreachable => 10
  | .connectionReset => 11
  | .brokenPipe => 12
  | .wouldBlock => 13
  | .timeout => 14
  | .invalidState => 15
  | .releaseFailed => 16
  | .unknown p => 17 + p.natAbs

/-- Modelled from the spec: the `int` encoding of a `tcp_recv` outcome in
the header's return convention — 0 for orderly peer shutdown, the byte
count for a successful read, a strictly negative value for an error. -/
def encodeRecv : RecvOutcome → Int
  | .peerShutdown => 0
  | .received n => (n : Int)
  | .failed e => -((errTag e : Int))

/-- Classification of a raw `tcp_recv` return value by the caller. -/
inductive RecvClass
  | shutdownRead
  | dataRead
  | errorRead
  deriving DecidableEq, Repr

/-- How a caller classifies a raw `tcp_recv` return value: 0 is orderly
shutdown, positive is data, negative is an error. -/
def classifyRecv (r : Int) : RecvClass :=
  if r = 0 then .shutdownRead
  else if 0 < r then .dataRead
  else .errorRead

-- --------------------------
-- Helper lemmas
-- --------------------------

/-- Every error tag is strictly positive, so errors encode strictly
negatively. -/
theorem errTag_pos (e : ErrorCode) : 0 < errTag e := by
  cases e <;> simp [errTag]

end SSocket

namespace SSocket

/-- C1: for every stream handle and every operation invoked in a state
outside the transition table of spec section 4.4, the operation fails
with `InvalidState` — before being attempted against the OS — and the
handle's state tag is unchanged afterward (no partial transition). -/
theorem C1_invalid_stream_op_rejected (os : Option ErrorCode)
    (s : TCPState) (op : TCPOp) (h : tcpValid s op = false) :
    tcpStep os s op = (Except.error ErrorCode.invalidState, s) := by
  simp [tcpStep, h]

/-- C1 witness: `tcp_send` before any connection is established (on a
fresh handle) is outside the table; it is rejected with `InvalidState`
and the handle stays `Fresh`; likewise `tcp_bind` on a handle reached
via `tcp_connect`. -/
theorem C1_invalid_stream_op_rejected_witness :
    tcpValid TCPState.fresh TCPOp.send = false ∧
    tcpStep none TCPState.fresh TCPOp.send =
      (Except.error ErrorCode.invalidState, TCPState.fresh) ∧
    tcpStep none TCPState.connectedActive TCPOp.bindOp =
      (Except.error ErrorCode.invalidState, TCPState.connectedActive) :=
  ⟨by decide,
   C1_invalid_stream_op_rejected none TCPState.fresh TCPOp.send (by decide),
   C1_invalid_stream_op_rejected none TCPState.connectedActive TCPOp.bindOp
     (by decide)⟩

/-- C2 counterexample: listen and accept are not two separate stream
operations of this interface.  The header declares no accept function at
all; the single declaration `tcp_listen` carries the backlog and the
out-parameters for the accepted client handle and the client address in
one parameter list. -/
theorem C2_no_separate_accept :
    apiDecl "tcp_accept" = none ∧ apiDecl "accept" = none ∧
    apiDecl "tcp_listen" =
      some ⟨"tcp_listen", CType.int,
        [CType.ptrTCPSocket, CType.int, CType.ptrTCPSocket, CType.ptrAddrInfo],
        FailureConv.sentinelNonzero⟩ := by
  decide

/-- C2 amended: listen and accept are one combined operation —
`tcp_listen(sock, backlog, client, clientInfo)` is the only
listen-related declaration; invoked on a bound socket it listens and
accepts in a single call, leaving the bound socket as the listening
daemon socket and furnishing the caller-supplied client handle as an
established (passively connected) socket with the client's address. -/
theorem C2_combined_listen_accept :
    apiDecl "tcp_accept" = none ∧
    (apiDecl "tcp_listen").map CDecl.params =
      some [CType.ptrTCPSocket, CType.int, CType.ptrTCPSocket,
        CType.ptrAddrInfo] ∧
    tcp_listen none TCPState.bound =
      (Except.ok (), TCPState.listening, TCPState.connectedPassive) := by
  refine ⟨by decide, by decide, rfl⟩

/-- C3 counterexample: the fallible operations `udp_mksocket` and
`udp_send` signal failure through sentinel values — NULL and a negative
integer respectively, per their doc comments — not through a tagged
result carrying an `ErrorCode`. -/
theorem C3_sentinel_counterexample :
    (apiDecl "udp_mksocket").map CDecl.failure =
      some FailureConv.sentinelNull ∧
    (apiDecl "udp_send").map CDecl.failure =
      some FailureConv.sentinelNegative ∧
    FailureConv.sentinelNull ≠ FailureConv.taggedResult ∧
    FailureConv.sentinelNegative ≠ FailureConv.taggedResult := by
  decide

/-- C3 amended: no operation of the declared API returns a tagged result;
every documented failure convention is an in-band sentinel (negative
integer, nonzero integer, or NULL pointer). -/
theorem C3_no_tagged_results :
    sSocketAPI.all (fun d => d.failure != FailureConv.taggedResult) = true := by
  decide

/-- C4: for every resolver oracle, host and port, a successful
`setaddrinfo` populates an `AddrInfo` whose `getport` is exactly the
input port, and a failed resolution returns a well-defined error
(`InvalidArgument` or `AddressResolutionFailed`) and produces no
`AddrInfo` value at all. -/
theorem C4_resolution_port_exact (resolver : String → Option String)
    (host : String) (port : Nat) :
    (∀ a, setaddrinfo resolver host port = Except.ok a →
      getport a = (port : Int)) ∧
    (∀ e, setaddrinfo resolver host port = Except.error e →
      e = ErrorCode.invalidArgument ∨ e = ErrorCode.addressResolutionFailed) := by
  constructor
  · intro a h
    unfold setaddrinfo at h
    split at h
    · exact absurd h (by simp)
    · cases hr : resolver host <;> rw [hr] at h
      · exact absurd h (by simp)
      · simp only [Except.ok.injEq] at h
        subst h
        rfl
  · intro e h
    unfold setaddrinfo at h
    split at h
    · simp only [Except.error.injEq] at h
      exact Or.inl h.symm
    · cases hr : resolver host <;> rw [hr] at h
      · simp only [Except.error.injEq] at h
        exact Or.inr h.symm
      · exact absurd h (by simp)

/-- C4 witness: resolving "8.8.8.8" at port 53 with an oracle that
succeeds yields an `AddrInfo` whose read-back port is exactly 53. -/
theorem C4_resolution_port_exact_witness :
    getport ⟨some ⟨"8.8.8.8", 53⟩⟩ = (53 : Int) :=
  (C4_resolution_port_exact (fun _ => some "8.8.8.8") "8.8.8.8" 53).1
    ⟨some ⟨"8.8.8.8", 53⟩⟩ rfl

/-- C5: under the integer result convention of `tcp_recv`, a 0-length
read (orderly peer-initiated shutdown) is classified as a shutdown, not
an error; it is distinguishable from every error outcome (strictly
negative) and from every successful nonzero-length read (strictly
positive). -/
theorem C5_recv_zero_distinguishable (n : Nat) (e : ErrorCode)
    (h : 0 < n) :
    classifyRecv (encodeRecv RecvOutcome.peerShutdown) =
      RecvClass.shutdownRead ∧
    classifyRecv (encodeRecv (RecvOutcome.received n)) =
      RecvClass.dataRead ∧
    classifyRecv (encodeRecv (RecvOutcome.failed e)) =
      RecvClass.errorRead := by
  refine ⟨rfl, ?_, ?_⟩
  · have hn : (0 : Int) < (n : Int) := by exact_mod_cast h
    have hne : ((n : Int)) ≠ 0 := by omega
    simp [classifyRecv, encodeRecv, hn, hne]
  · have he : 0 < errTag e := errTag_pos e
    have he' : (0 : Int) < (errTag e : Int) := by exact_mod_cast he
    have h1 : -((errTag e : Int)) ≠ 0 := by omega
    have h2 : ¬ (0 : Int) < -((errTag e : Int)) := by omega
    simp [classifyRecv, encodeRecv, h1, h2]

/-- C5 witness: a 4-byte read, a shutdown, and a ConnectionReset error
classify to three distinct classes. -/
theorem C5_recv_zero_distinguishable_witness :
    (0 : Nat) < 4 ∧
    (classifyRecv (encodeRecv RecvOutcome.peerShutdown) =
        RecvClass.shutdownRead ∧
      classifyRecv (encodeRecv (RecvOutcome.received 4)) =
        RecvClass.dataRead ∧
      classifyRecv (encodeRecv (RecvOutcome.failed
        ErrorCode.connectionReset)) = RecvClass.errorRead) :=
  ⟨by decide,
   C5_recv_zero_distinguishable 4 ErrorCode.connectionReset (by decide)⟩

/-- C6: `udp_recv` is valid only from the Bound state — on a never-bound
handle it fails with `InvalidState` (leaving the state unchanged) rather
than receiving data — while `udp_send` is valid from either the Unbound
or the Bound state. -/
theorem C6_udp_recv_requires_bind (os : Option ErrorCode) :
    udpValid UDPState.unbound UDPOp.recvFrom = false ∧
    udpStep os UDPState.unbound UDPOp.recvFrom =
      (Except.error ErrorCode.invalidState, UDPState.unbound) ∧
    udpValid UDPState.bound UDPOp.recvFrom = true ∧
    udpValid UDPState.unbound UDPOp.sendTo = true ∧
    udpValid UDPState.bound UDPOp.sendTo = true := by
  refine ⟨rfl, ?_, rfl, rfl, rfl⟩
  simp [udpStep, udpValid]

/-- C7: `get_error` is total: for every integer error code it returns a
string — the mapped description when the platform table knows the code,
and the generic "unknown error <n>" fallback otherwise, never a
failure. -/
theorem C7_get_error_total (table : Int → Option String) (n : Int) :
    (∀ s, table n = some s → get_error table n = s) ∧
    (table n = none → get_error table n = "unknown error " ++ toString n) := by
  constructor
  · intro s hs
    simp [get_error, hs]
  · intro hn
    simp [get_error, hn]

/-- C7 witness: on a table with no mapping, code 42 yields the generic
fallback message. -/
theorem C7_get_error_total_witness :
    get_error (fun _ => none) 42 = "unknown error " ++ toString (42 : Int) :=
  (C7_get_error_total (fun _ => none) 42).2 rfl

/-- C8: `gethost` returns NULL and `getport` returns a negative value
exactly when the `AddrInfo` was never successfully populated; every
`AddrInfo` populated by a successful `setaddrinfo` call has a non-null
host string and a nonnegative port. -/
theorem C8_accessors_fail_only_unpopulated :
    (∀ a : AddrInfo, gethost a = none ↔ a.populated = none) ∧
    (∀ a : AddrInfo, getport a < 0 ↔ a.populated = none) ∧
    (∀ resolver host port a,
      setaddrinfo resolver host port = Except.ok a →
        (∃ s, gethost a = some s) ∧ 0 ≤ getport a) := by
  refine ⟨?_, ?_, ?_⟩
  · intro a
    obtain ⟨p⟩ := a
    cases p <;> simp [gethost]
  · intro a
    obtain ⟨p⟩ := a
    cases p with
    | none => simp [getport]
    | some d =>
        simp only [getport]
        constructor
        · intro hlt
          omega
        · intro hc
          exact absurd hc (by simp)
  · intro resolver host port a h
    unfold setaddrinfo at h
    split at h
    · exact absurd h (by simp)
    · cases hr : resolver host <;> rw [hr] at h
      · exact absurd h (by simp)
      · simp only [Except.ok.injEq] at h
        subst h
        exact ⟨⟨_, rfl⟩, by simp [getport]⟩

/-- C8 witness: the `AddrInfo` produced by a successful resolution of
("0.0.0.0", 8080) has a non-null host string and a nonnegative port. -/
theorem C8_accessors_fail_only_unpopulated_witness :
    (∃ s, gethost ⟨some ⟨"0.0.0.0", 8080⟩⟩ = some s) ∧
    0 ≤ getport ⟨some ⟨"0.0.0.0", 8080⟩⟩ :=
  C8_accessors_fail_only_unpopulated.2.2 (fun _ => some "0.0.0.0")
    "0.0.0.0" 8080 ⟨some ⟨"0.0.0.0", 8080⟩⟩ rfl

/-- C9: the declared interface does not keep datagram and stream handle
types distinct: `tcp_bind` takes its socket parameter as
`struct UDPSocket *`, and `udp_free` takes its parameter as
`TCPSocket *` — each the opposite family's handle type. -/
theorem C9_mismatched_handle_types :
    (apiDecl "tcp_bind").map CDecl.params =
      some [CType.ptrUDPSocket, CType.ptrAddrInfo] ∧
    (apiDecl "udp_free").map CDecl.params = some [CType.ptrTCPSocket] ∧
    CType.ptrUDPSocket ≠ CType.ptrTCPSocket := by
  decide

/-- C10: the port parameter of `setaddrinfo` has the unsigned type
`size_t`, so a negative port is unrepresentable at the interface; over
the representable (natural-number) ports, the fail-fast validation of
the [0, 65535] invariant reduces to the single upper-bound check: the
call fails with `InvalidArgument` exactly when port > 65535. -/
theorem C10_port_unsigned_single_check :
    (apiDecl "setaddrinfo").map CDecl.params =
      some [CType.charPtr, CType.sizeT, CType.ptrAddrInfo] ∧
    isUnsigned CType.sizeT = true ∧
    ∀ resolver host (port : Nat),
      (setaddrinfo resolver host port =
          Except.error ErrorCode.invalidArgument ↔ 65535 < port) := by
  refine ⟨by decide, rfl, ?_⟩
  intro resolver host port
  constructor
  · intro h
    by_contra hle
    unfold setaddrinfo at h
    rw [if_neg hle] at h
    cases hr : resolver host <;> rw [hr] at h <;> simp at h
  · intro h
    unfold setaddrinfo
    rw [if_pos h]

end SSocket
